import Mathlib

/-!
Formal model of the grid hedging bot in `src/main.py` (class `Trader`).

Prices and quantities are modelled as rationals `ℚ` (the Python code uses
floats; all arithmetic in the strategy is plain `+ - *` on prices, so the
exact-arithmetic model captures the intended values).

Python exceptions are modelled explicitly: every effectful operation
returns an `Outcome` carrying the state after the call, the list of market
orders actually issued (in order), and a flag saying whether the call
raised (propagated an exception to its caller).

The exchange (Binance client) is modelled as a per-tick `Gateway` oracle:
`createOrder` says whether a given `futures_create_order` request succeeds,
`ticker` is the `futures_symbol_ticker` response (`none` = the query
raises), and `positions` is the `futures_position_information` response
(`none` = the query raises).

Fields of `Trader.__init__` that no modelled operation reads or writes
(`symbol`, `bar_length`, `leverage`, `cum_profits`) are omitted.
-/

/-- The `positionSide` of an order / position: `"LONG"` or `"SHORT"`. -/
inductive PosSide where
  | LONG
  | SHORT
deriving DecidableEq, Repr

/-- Order side of `futures_create_order`: `"BUY"` or `"SELL"`. -/
inductive OrdSide where
  | BUY
  | SELL
deriving DecidableEq, Repr

/-- A `futures_create_order` market-order request, as issued by the code
(symbol and `type="MARKET"` are constant and omitted). -/
structure OrderReq where
  side : OrdSide
  quantity : ℚ
  positionSide : PosSide
deriving DecidableEq, Repr

/-- One entry of the `futures_position_information` response. -/
structure Position where
  positionSide : PosSide
  positionAmt : ℚ
deriving DecidableEq, Repr

/-- Per-tick oracle for the Binance client calls the strategy makes. -/
structure Gateway where
  /-- Whether a given `futures_create_order` request succeeds. -/
  createOrder : OrderReq → Bool
  /-- The `futures_symbol_ticker` price; `none` means the query raises. -/
  ticker : Option ℚ
  /-- The `futures_position_information` response; `none` means the query raises. -/
  positions : Option (List Position)

/-- The mutable state of the `Trader` object (`self.…` fields used by the
trading logic). `last_direction = none` models Python `None`. -/
structure TraderState where
  side : PosSide
  base_units : ℚ
  int_units : ℚ
  close : ℚ
  long_entry_add : ℚ
  short_entry_deduct : ℚ
  long_tp_add : ℚ
  long_sl_deduct : ℚ
  short_tp_deduct : ℚ
  short_sl_add : ℚ
  long_entry : ℚ
  short_entry : ℚ
  long_tp : ℚ
  long_sl : ℚ
  short_tp : ℚ
  short_sl : ℚ
  last_units : ℚ
  last_direction : Option PosSide
deriving DecidableEq, Repr

/-- Result of an effectful operation: state after the call, market orders
issued during it (in order), and whether it raised to its caller. -/
structure Outcome where
  state : TraderState
  orders : List OrderReq
  raised : Bool
deriving DecidableEq, Repr

/-- Model of `Trader.__init__`: sentinel zero/none values, `int_units = base_units
= units`, configured offsets and initial side. -/
def initState (units : ℚ) (side : PosSide)
    (long_entry_add short_entry_deduct long_tp_add long_sl_deduct
     short_tp_deduct short_sl_add : ℚ) : TraderState where
  side := side
  base_units := units
  int_units := units
  close := 0
  long_entry_add := long_entry_add
  short_entry_deduct := short_entry_deduct
  long_tp_add := long_tp_add
  long_sl_deduct := long_sl_deduct
  short_tp_deduct := short_tp_deduct
  short_sl_add := short_sl_add
  long_entry := 0
  short_entry := 0
  long_tp := 0
  long_sl := 0
  short_tp := 0
  short_sl := 0
  last_units := 0
  last_direction := none

/-- Model of `Trader.first_trade`: open the initial position on `self.side`, read
the ticker price, derive all six levels, set `last_units`/`last_direction`.
A failing order or ticker query raises (the `except` clause re-raises)
with no field mutated, since in the source every assignment comes after
both client calls. -/
def first_trade (gw : Gateway) (s : TraderState) : Outcome :=
  match s.side with
  | PosSide.LONG =>
    let req : OrderReq := ⟨OrdSide.BUY, s.int_units, PosSide.LONG⟩
    if gw.createOrder req then
      match gw.ticker with
      | some p =>
        let le := p
        let se := le - s.short_entry_deduct * le
        { state :=
            { s with
              long_entry := le
              short_entry := se
              long_tp := le + s.long_tp_add * le
              long_sl := le - s.long_sl_deduct * le
              short_tp := se - s.short_tp_deduct * se
              short_sl := se + s.short_sl_add * se
              last_units := s.int_units
              last_direction := some PosSide.LONG }
          orders := [req]
          raised := false }
      | none => ⟨s, [req], true⟩
    else ⟨s, [], true⟩
  | PosSide.SHORT =>
    let req : OrderReq := ⟨OrdSide.SELL, s.int_units, PosSide.SHORT⟩
    if gw.createOrder req then
      match gw.ticker with
      | some p =>
        let se := p
        let le := se + s.long_entry_add * se
        { state :=
            { s with
              short_entry := se
              long_entry := le
              short_tp := se - s.short_tp_deduct * se
              short_sl := se + s.short_sl_add * se
              long_tp := le + s.long_tp_add * le
              long_sl := le - s.long_sl_deduct * le
              last_units := s.int_units * (-1)
              last_direction := some PosSide.SHORT }
          orders := [req]
          raised := false }
      | none => ⟨s, [req], true⟩
    else ⟨s, [], true⟩

/-- The `for pos in positions` loop of `Trader.close_all_positions`:
skips zero amounts, closes a reported LONG with a SELL and a reported
SHORT with a BUY, each for `abs(amt)`. A failed order raises, ending the
loop; orders already issued stay issued. Returns (issued orders, raised).
-/
def close_loop (gw : Gateway) : List Position → List OrderReq × Bool
  | [] => ([], false)
  | pos :: rest =>
    if pos.positionAmt = 0 then close_loop gw rest
    else
      match pos.positionSide with
      | PosSide.LONG =>
        if 0 < pos.positionAmt then
          let req : OrderReq := ⟨OrdSide.SELL, |pos.positionAmt|, PosSide.LONG⟩
          if gw.createOrder req then
            let r := close_loop gw rest
            (req :: r.1, r.2)
          else ([], true)
        else close_loop gw rest
      | PosSide.SHORT =>
        if pos.positionAmt < 0 then
          let req : OrderReq := ⟨OrdSide.BUY, |pos.positionAmt|, PosSide.SHORT⟩
          if gw.createOrder req then
            let r := close_loop gw rest
            (req :: r.1, r.2)
          else ([], true)
        else close_loop gw rest

/-- Model of `Trader.close_all_positions`: query `futures_position_information`
(raising if it fails) and run the closing loop. Never assigns any `self`
field; the `except` clause re-raises. -/
def close_all_positions (gw : Gateway) (s : TraderState) : Outcome :=
  match gw.positions with
  | none => ⟨s, [], true⟩
  | some ps =>
    let r := close_loop gw ps
    ⟨s, r.1, r.2⟩

/-- The LONG→SHORT hedge branch of `Trader.hedging_loop` (taken when
`last_direction == "LONG"`, `last_units > 0` and `close <= short_entry`):
SELL `abs(last_units*2)` on the SHORT side, refresh `short_entry` from the
ticker, recompute `short_tp`/`short_sl`, negate-and-double `last_units`.
A failed order or ticker query raises before any assignment. -/
def hedge_long_to_short (gw : Gateway) (s : TraderState) : Outcome :=
  let req : OrderReq := ⟨OrdSide.SELL, |s.last_units * 2|, PosSide.SHORT⟩
  if gw.createOrder req then
    match gw.ticker with
    | some p =>
      { state :=
          { s with
            short_entry := p
            short_tp := p - s.short_tp_deduct * p
            short_sl := p + s.short_sl_add * p
            last_units := s.last_units * 2 * (-1)
            last_direction := some PosSide.SHORT }
        orders := [req]
        raised := false }
    | none => ⟨s, [req], true⟩
  else ⟨s, [], true⟩

/-- The SHORT→LONG hedge branch of `Trader.hedging_loop` (taken when
`last_direction == "SHORT"`, `last_units < 0` and `close >= long_entry`).
-/
def hedge_short_to_long (gw : Gateway) (s : TraderState) : Outcome :=
  let req : OrderReq := ⟨OrdSide.BUY, |s.last_units * 2|, PosSide.LONG⟩
  if gw.createOrder req then
    match gw.ticker with
    | some p =>
      { state :=
          { s with
            long_entry := p
            long_tp := p + s.long_tp_add * p
            long_sl := p - s.long_sl_deduct * p
            last_units := s.last_units * 2 * (-1)
            last_direction := some PosSide.LONG }
        orders := [req]
        raised := false }
    | none => ⟨s, [req], true⟩
  else ⟨s, [], true⟩

/-- The LONG take-profit branch of `Trader.hedging_loop` (taken when
`close >= long_tp` and the hedge branch did not fire): `close_all_positions`,
then reset `last_units`/`last_direction`, set `side = "LONG"` and re-run
`first_trade`. If `close_all_positions` raises, the resets never execute.
-/
def tp_restart_long (gw : Gateway) (s : TraderState) : Outcome :=
  if (close_all_positions gw s).raised then
    ⟨(close_all_positions gw s).state, (close_all_positions gw s).orders,
     true⟩
  else
    ⟨(first_trade gw
        { (close_all_positions gw s).state with
          last_units := 0
          last_direction := none
          side := PosSide.LONG }).state,
     (close_all_positions gw s).orders ++
       (first_trade gw
          { (close_all_positions gw s).state with
            last_units := 0
            last_direction := none
            side := PosSide.LONG }).orders,
     (first_trade gw
        { (close_all_positions gw s).state with
          last_units := 0
          last_direction := none
          side := PosSide.LONG }).raised⟩

/-- The SHORT take-profit branch of `Trader.hedging_loop` (taken when
`close <= short_tp` and the hedge branch did not fire). -/
def tp_restart_short (gw : Gateway) (s : TraderState) : Outcome :=
  if (close_all_positions gw s).raised then
    ⟨(close_all_positions gw s).state, (close_all_positions gw s).orders,
     true⟩
  else
    ⟨(first_trade gw
        { (close_all_positions gw s).state with
          last_units := 0
          last_direction := none
          side := PosSide.SHORT }).state,
     (close_all_positions gw s).orders ++
       (first_trade gw
          { (close_all_positions gw s).state with
            last_units := 0
            last_direction := none
            side := PosSide.SHORT }).orders,
     (first_trade gw
        { (close_all_positions gw s).state with
          last_units := 0
          last_direction := none
          side := PosSide.SHORT }).raised⟩

/-- Model of `Trader.hedging_loop`: dispatch on `last_direction`, the sign guard on
`last_units`, then hedge trigger first (inclusive `<=`/`>=`), take-profit
second (`elif`). The surrounding `try/except` swallows every exception
("Don't raise here to prevent WebSocket from crashing"), so the outcome
never raises. -/
def hedging_loop (gw : Gateway) (s : TraderState) : Outcome :=
  let o :=
    match s.last_direction with
    | some PosSide.LONG =>
      if 0 < s.last_units then
        if s.close ≤ s.short_entry then hedge_long_to_short gw s
        else if s.long_tp ≤ s.close then tp_restart_long gw s
        else ⟨s, [], false⟩
      else ⟨s, [], false⟩
    | some PosSide.SHORT =>
      if s.last_units < 0 then
        if s.long_entry ≤ s.close then hedge_short_to_long gw s
        else if s.close ≤ s.short_tp then tp_restart_short gw s
        else ⟨s, [], false⟩
      else ⟨s, [], false⟩
    | none => ⟨s, [], false⟩
  ⟨o.state, o.orders, false⟩

/-- Model of `Trader.stream_price` on an already-parsed closing price `p`: store
`self.close = p`, then run the hedging loop. Its own `try/except` also
never re-raises. -/
def stream_price (gw : Gateway) (p : ℚ) (s : TraderState) : Outcome :=
  let o := hedging_loop gw { s with close := p }
  ⟨o.state, o.orders, false⟩

/-- A run of the price stream: fold `stream_price` over a list of ticks,
each tick carrying its gateway responses and its parsed close price. -/
def runTicks (s : TraderState) : List (Gateway × ℚ) → TraderState
  | [] => s
  | (gw, p) :: rest => runTicks (stream_price gw p s).state rest

/-- The sign/direction consistency invariant of the spec: `last_units` is
positive when `last_direction` is LONG, negative when SHORT, zero when
`None`. -/
def signOk (s : TraderState) : Prop :=
  match s.last_direction with
  | some PosSide.LONG => 0 < s.last_units
  | some PosSide.SHORT => s.last_units < 0
  | none => s.last_units = 0

instance (s : TraderState) : Decidable (signOk s) := by
  unfold signOk
  exact match s.last_direction with
    | some PosSide.LONG => inferInstanceAs (Decidable (0 < s.last_units))
    | some PosSide.SHORT => inferInstanceAs (Decidable (s.last_units < 0))
    | none => inferInstanceAs (Decidable (s.last_units = 0))

/-- The order `close_all_positions` issues to flatten one reported
position: sell off a LONG, buy back a SHORT, quantity `abs(amt)`. -/
def closeOrderOf (pos : Position) : OrderReq :=
  match pos.positionSide with
  | PosSide.LONG => ⟨OrdSide.SELL, |pos.positionAmt|, PosSide.LONG⟩
  | PosSide.SHORT => ⟨OrdSide.BUY, |pos.positionAmt|, PosSide.SHORT⟩

/-- Scenario A configuration: offsets 0.4%/0.4%/0.8%/1.2%/0.8%/1.2%,
`baseUnits = 0.3`, `initialSide = LONG`, fresh state. -/
def scenarioA_init : TraderState :=
  initState (3/10) PosSide.LONG (4/1000) (4/1000) (8/1000) (12/1000)
    (8/1000) (12/1000)

/-- A gateway on which every order succeeds and the ticker reports 50000.
-/
def gwFill50000 : Gateway := ⟨fun _ => true, some 50000, some []⟩

/-- Scenario A: the state after the initial `first_trade` at fill price
50000. -/
def scenarioA : TraderState := (first_trade gwFill50000 scenarioA_init).state

/-- The gateway used for Scenario B: every order succeeds and the ticker
reports a fill at 49800. -/
def gwFill49800 : Gateway := ⟨fun _ => true, some 49800, none⟩

/-- A gateway on which every client call fails. -/
def gwFail : Gateway := ⟨fun _ => false, none, none⟩

/-- A mismatched state for exercising the sign guard: LONG direction with
the initial zero exposure. -/
def mismatchedLong : TraderState :=
  { scenarioA_init with last_direction := some PosSide.LONG }

section DispatchLemmas

lemma stream_price_eq (gw : Gateway) (p : ℚ) (s : TraderState) :
    stream_price gw p s =
      ⟨(hedging_loop gw { s with close := p }).state,
       (hedging_loop gw { s with close := p }).orders, false⟩ := rfl

lemma hedging_loop_long_hedge (gw : Gateway) (s : TraderState)
    (hd : s.last_direction = some PosSide.LONG) (hu : 0 < s.last_units)
    (hc : s.close ≤ s.short_entry) :
    hedging_loop gw s =
      ⟨(hedge_long_to_short gw s).state, (hedge_long_to_short gw s).orders,
       false⟩ := by
  simp only [hedging_loop, hd]
  rw [if_pos hu, if_pos hc]

lemma hedging_loop_long_tp (gw : Gateway) (s : TraderState)
    (hd : s.last_direction = some PosSide.LONG) (hu : 0 < s.last_units)
    (hc : ¬ s.close ≤ s.short_entry) (ht : s.long_tp ≤ s.close) :
    hedging_loop gw s =
      ⟨(tp_restart_long gw s).state, (tp_restart_long gw s).orders,
       false⟩ := by
  simp only [hedging_loop, hd]
  rw [if_pos hu, if_neg hc, if_pos ht]

lemma hedging_loop_long_noop (gw : Gateway) (s : TraderState)
    (hd : s.last_direction = some PosSide.LONG) (hu : 0 < s.last_units)
    (hc : ¬ s.close ≤ s.short_entry) (ht : ¬ s.long_tp ≤ s.close) :
    hedging_loop gw s = ⟨s, [], false⟩ := by
  simp only [hedging_loop, hd]
  rw [if_pos hu, if_neg hc, if_neg ht]

lemma hedging_loop_long_badsign (gw : Gateway) (s : TraderState)
    (hd : s.last_direction = some PosSide.LONG) (hu : ¬ 0 < s.last_units) :
    hedging_loop gw s = ⟨s, [], false⟩ := by
  simp only [hedging_loop, hd]
  rw [if_neg hu]

lemma hedging_loop_short_hedge (gw : Gateway) (s : TraderState)
    (hd : s.last_direction = some PosSide.SHORT) (hu : s.last_units < 0)
    (hc : s.long_entry ≤ s.close) :
    hedging_loop gw s =
      ⟨(hedge_short_to_long gw s).state, (hedge_short_to_long gw s).orders,
       false⟩ := by
  simp only [hedging_loop, hd]
  rw [if_pos hu, if_pos hc]

lemma hedging_loop_short_tp (gw : Gateway) (s : TraderState)
    (hd : s.last_direction = some PosSide.SHORT) (hu : s.last_units < 0)
    (hc : ¬ s.long_entry ≤ s.close) (ht : s.close ≤ s.short_tp) :
    hedging_loop gw s =
      ⟨(tp_restart_short gw s).state, (tp_restart_short gw s).orders,
       false⟩ := by
  simp only [hedging_loop, hd]
  rw [if_pos hu, if_neg hc, if_pos ht]

lemma hedging_loop_short_noop (gw : Gateway) (s : TraderState)
    (hd : s.last_direction = some PosSide.SHORT) (hu : s.last_units < 0)
    (hc : ¬ s.long_entry ≤ s.close) (ht : ¬ s.close ≤ s.short_tp) :
    hedging_loop gw s = ⟨s, [], false⟩ := by
  simp only [hedging_loop, hd]
  rw [if_pos hu, if_neg hc, if_neg ht]

lemma hedging_loop_short_badsign (gw : Gateway) (s : TraderState)
    (hd : s.last_direction = some PosSide.SHORT)
    (hu : ¬ s.last_units < 0) :
    hedging_loop gw s = ⟨s, [], false⟩ := by
  simp only [hedging_loop, hd]
  rw [if_neg hu]

lemma hedging_loop_none (gw : Gateway) (s : TraderState)
    (hd : s.last_direction = none) :
    hedging_loop gw s = ⟨s, [], false⟩ := by
  simp only [hedging_loop, hd]

end DispatchLemmas

section CloseAllLemmas

lemma close_loop_char (gw : Gateway) (ps : List Position)
    (hwf : ∀ pos ∈ ps,
      (pos.positionSide = PosSide.LONG → 0 ≤ pos.positionAmt) ∧
      (pos.positionSide = PosSide.SHORT → pos.positionAmt ≤ 0))
    (hok : ∀ r, gw.createOrder r = true) :
    close_loop gw ps =
      (ps.filterMap fun pos =>
        if pos.positionAmt = 0 then none else some (closeOrderOf pos),
       false) := by
  induction ps with
  | nil => simp [close_loop]
  | cons pos rest ih =>
    have hwf' : ∀ q ∈ rest,
        (q.positionSide = PosSide.LONG → 0 ≤ q.positionAmt) ∧
        (q.positionSide = PosSide.SHORT → q.positionAmt ≤ 0) :=
      fun q hq => hwf q (List.mem_cons_of_mem _ hq)
    have hpos := hwf pos (List.mem_cons_self _ _)
    by_cases h0 : pos.positionAmt = 0
    · simp [close_loop, h0, ih hwf']
    · cases hside : pos.positionSide with
      | LONG =>
        have hgt : 0 < pos.positionAmt :=
          lt_of_le_of_ne (hpos.1 hside) (Ne.symm h0)
        simp [close_loop, h0, hside, hgt, hok, ih hwf', closeOrderOf,
          List.filterMap_cons]
      | SHORT =>
        have hlt : pos.positionAmt < 0 :=
          lt_of_le_of_ne (hpos.2 hside) h0
        simp [close_loop, h0, hside, hlt, hok, ih hwf', closeOrderOf,
          List.filterMap_cons]

lemma close_all_state (gw : Gateway) (s : TraderState) :
    (close_all_positions gw s).state = s := by
  unfold close_all_positions
  cases gw.positions <;> rfl

end CloseAllLemmas

/-- C3: with offsets 0.4%/0.4%/0.8%/1.2%/0.8%/1.2%, `baseUnits = 0.3`,
`initialSide = LONG` and fill price 50000, `first_trade` yields
`shortTp = 49800·(1 − 0.008) = 49401.6`, not ≈49404.4 as the claim
states: the computed value is 2.8 away from the claimed one. -/
theorem C3_counterexample :
    scenarioA.short_tp = 494016/10 ∧
    scenarioA.short_tp ≠ 494044/10 ∧
    494044/10 - scenarioA.short_tp = 28/10 := by
  refine ⟨?_, ?_, ?_⟩ <;>
    norm_num [scenarioA, scenarioA_init, gwFill50000, first_trade, initState]

/-- C3 (amended): the same scenario yields `longEntry = 50000`,
`shortEntry = 49800`, `longTp = 50400`, `longSl = 49400`,
`shortTp = 49401.6`, `shortSl = 50397.6` and `exposureUnits = 0.3`. -/
theorem C3_amended :
    scenarioA.long_entry = 50000 ∧
    scenarioA.short_entry = 49800 ∧
    scenarioA.long_tp = 50400 ∧
    scenarioA.long_sl = 49400 ∧
    scenarioA.short_tp = 494016/10 ∧
    scenarioA.short_sl = 503976/10 ∧
    scenarioA.last_units = 3/10 := by
  refine ⟨?_, ?_, ?_, ?_, ?_, ?_, ?_⟩ <;>
    norm_num [scenarioA, scenarioA_init, gwFill50000, first_trade, initState]

/-- C7: if the market-order placement fails during `first_trade`, the
exception is re-raised to the caller and no field of the trader state is
mutated, on either initial side. -/
theorem C7_first_trade_order_failure (gw : Gateway) (s : TraderState) :
    (s.side = PosSide.LONG →
      gw.createOrder ⟨OrdSide.BUY, s.int_units, PosSide.LONG⟩ = false →
      first_trade gw s = ⟨s, [], true⟩) ∧
    (s.side = PosSide.SHORT →
      gw.createOrder ⟨OrdSide.SELL, s.int_units, PosSide.SHORT⟩ = false →
      first_trade gw s = ⟨s, [], true⟩) := by
  constructor
  · intro hside hfail
    simp [first_trade, hside, hfail]
  · intro hside hfail
    simp [first_trade, hside, hfail]

/-- C7 witness: concrete failing gateway leaves the Scenario A initial
state untouched and raises. -/
theorem C7_witness :
    first_trade ⟨fun _ => false, some 50000, some []⟩ scenarioA_init =
      ⟨scenarioA_init, [], true⟩ :=
  (C7_first_trade_order_failure ⟨fun _ => false, some 50000, some []⟩
    scenarioA_init).1 rfl rfl

/-- C9: `close_all_positions` never mutates the trader state; given a
position report whose signs follow the venue convention (LONG amounts
nonnegative, SHORT nonpositive) and a gateway accepting every order, it
issues exactly one opposing market order of quantity `abs(amt)` per
position with nonzero amount, and zero orders when all reported amounts
are zero. -/
theorem C9_close_all (gw : Gateway) (s : TraderState) (ps : List Position)
    (hps : gw.positions = some ps)
    (hwf : ∀ pos ∈ ps,
      (pos.positionSide = PosSide.LONG → 0 ≤ pos.positionAmt) ∧
      (pos.positionSide = PosSide.SHORT → pos.positionAmt ≤ 0))
    (hok : ∀ r, gw.createOrder r = true) :
    (close_all_positions gw s).state = s ∧
    (close_all_positions gw s).raised = false ∧
    (close_all_positions gw s).orders =
      (ps.filterMap fun pos =>
        if pos.positionAmt = 0 then none else some (closeOrderOf pos)) ∧
    ((∀ pos ∈ ps, pos.positionAmt = 0) →
      (close_all_positions gw s).orders = []) := by
  have hchar := close_loop_char gw ps hwf hok
  refine ⟨close_all_state gw s, ?_, ?_, ?_⟩
  · simp [close_all_positions, hps, hchar]
  · simp [close_all_positions, hps, hchar]
  · intro hz
    simp only [close_all_positions, hps, hchar]
    exact List.filterMap_eq_nil_iff.2 fun pos hpos => by simp [hz pos hpos]

/-- C9 witness: closing a 0.5 LONG and a 0.25 SHORT (plus a zero-amount
LONG line) issues exactly a SELL 0.5 LONG and a BUY 0.25 SHORT, leaving
the state alone. -/
theorem C9_witness :
    (close_all_positions
        ⟨fun _ => true, none,
          some [⟨PosSide.LONG, 1/2⟩, ⟨PosSide.SHORT, -(1/4)⟩,
                ⟨PosSide.LONG, 0⟩]⟩ scenarioA_init).state = scenarioA_init ∧
    (close_all_positions
        ⟨fun _ => true, none,
          some [⟨PosSide.LONG, 1/2⟩, ⟨PosSide.SHORT, -(1/4)⟩,
                ⟨PosSide.LONG, 0⟩]⟩ scenarioA_init).orders =
      [⟨OrdSide.SELL, 1/2, PosSide.LONG⟩,
       ⟨OrdSide.BUY, 1/4, PosSide.SHORT⟩] := by
  have h := C9_close_all
    ⟨fun _ => true, none,
      some [⟨PosSide.LONG, 1/2⟩, ⟨PosSide.SHORT, -(1/4)⟩,
            ⟨PosSide.LONG, 0⟩]⟩ scenarioA_init
    [⟨PosSide.LONG, 1/2⟩, ⟨PosSide.SHORT, -(1/4)⟩, ⟨PosSide.LONG, 0⟩]
    rfl
    (by
      intro pos hpos
      fin_cases hpos <;> constructor <;> intro h <;> simp_all)
    (fun r => rfl)
  refine ⟨h.1, ?_⟩
  rw [h.2.2.1]
  norm_num [closeOrderOf, List.filterMap_cons]

section SuccessLemmas

lemma hedge_long_to_short_success (gw : Gateway) (s : TraderState) (q : ℚ)
    (hok : gw.createOrder
      ⟨OrdSide.SELL, |s.last_units * 2|, PosSide.SHORT⟩ = true)
    (ht : gw.ticker = some q) :
    hedge_long_to_short gw s =
      ⟨{ s with
          short_entry := q
          short_tp := q - s.short_tp_deduct * q
          short_sl := q + s.short_sl_add * q
          last_units := s.last_units * 2 * (-1)
          last_direction := some PosSide.SHORT },
       [⟨OrdSide.SELL, |s.last_units * 2|, PosSide.SHORT⟩], false⟩ := by
  simp [hedge_long_to_short, hok, ht]

lemma hedge_short_to_long_success (gw : Gateway) (s : TraderState) (q : ℚ)
    (hok : gw.createOrder
      ⟨OrdSide.BUY, |s.last_units * 2|, PosSide.LONG⟩ = true)
    (ht : gw.ticker = some q) :
    hedge_short_to_long gw s =
      ⟨{ s with
          long_entry := q
          long_tp := q + s.long_tp_add * q
          long_sl := q - s.long_sl_deduct * q
          last_units := s.last_units * 2 * (-1)
          last_direction := some PosSide.LONG },
       [⟨OrdSide.BUY, |s.last_units * 2|, PosSide.LONG⟩], false⟩ := by
  simp [hedge_short_to_long, hok, ht]

lemma hedge_long_to_short_failure (gw : Gateway) (s : TraderState)
    (hfail : gw.createOrder
        ⟨OrdSide.SELL, |s.last_units * 2|, PosSide.SHORT⟩ = false ∨
      gw.ticker = none) :
    (hedge_long_to_short gw s).state = s ∧
    (hedge_long_to_short gw s).raised = true := by
  rcases hfail with hfail | hfail
  · simp [hedge_long_to_short, hfail]
  · unfold hedge_long_to_short
    cases hc : gw.createOrder
        ⟨OrdSide.SELL, |s.last_units * 2|, PosSide.SHORT⟩ <;>
      simp [hc, hfail]

lemma hedge_short_to_long_failure (gw : Gateway) (s : TraderState)
    (hfail : gw.createOrder
        ⟨OrdSide.BUY, |s.last_units * 2|, PosSide.LONG⟩ = false ∨
      gw.ticker = none) :
    (hedge_short_to_long gw s).state = s ∧
    (hedge_short_to_long gw s).raised = true := by
  rcases hfail with hfail | hfail
  · simp [hedge_short_to_long, hfail]
  · unfold hedge_short_to_long
    cases hc : gw.createOrder
        ⟨OrdSide.BUY, |s.last_units * 2|, PosSide.LONG⟩ <;>
      simp [hc, hfail]

lemma first_trade_long_success (gw : Gateway) (s : TraderState) (q : ℚ)
    (hside : s.side = PosSide.LONG)
    (hok : gw.createOrder ⟨OrdSide.BUY, s.int_units, PosSide.LONG⟩ = true)
    (ht : gw.ticker = some q) :
    first_trade gw s =
      ⟨{ s with
          long_entry := q
          short_entry := q - s.short_entry_deduct * q
          long_tp := q + s.long_tp_add * q
          long_sl := q - s.long_sl_deduct * q
          short_tp := (q - s.short_entry_deduct * q) -
            s.short_tp_deduct * (q - s.short_entry_deduct * q)
          short_sl := (q - s.short_entry_deduct * q) +
            s.short_sl_add * (q - s.short_entry_deduct * q)
          last_units := s.int_units
          last_direction := some PosSide.LONG },
       [⟨OrdSide.BUY, s.int_units, PosSide.LONG⟩], false⟩ := by
  simp [first_trade, hside, hok, ht]

lemma first_trade_short_success (gw : Gateway) (s : TraderState) (q : ℚ)
    (hside : s.side = PosSide.SHORT)
    (hok : gw.createOrder ⟨OrdSide.SELL, s.int_units, PosSide.SHORT⟩ = true)
    (ht : gw.ticker = some q) :
    first_trade gw s =
      ⟨{ s with
          short_entry := q
          long_entry := q + s.long_entry_add * q
          short_tp := q - s.short_tp_deduct * q
          short_sl := q + s.short_sl_add * q
          long_tp := (q + s.long_entry_add * q) +
            s.long_tp_add * (q + s.long_entry_add * q)
          long_sl := (q + s.long_entry_add * q) -
            s.long_sl_deduct * (q + s.long_entry_add * q)
          last_units := s.int_units * (-1)
          last_direction := some PosSide.SHORT },
       [⟨OrdSide.SELL, s.int_units, PosSide.SHORT⟩], false⟩ := by
  simp [first_trade, hside, hok, ht]

end SuccessLemmas

/-- C4: a LONG→SHORT hedge transition refreshes only the short side
(`shortEntry` to the new fill price `q`, `shortTp`/`shortSl` recomputed
from `q`) and leaves `longEntry`/`longTp`/`longSl` exactly as before;
symmetrically a SHORT→LONG hedge leaves the short-side levels untouched.
-/
theorem C4_hedge_frame (gw : Gateway) (p q : ℚ) (s : TraderState)
    (ht : gw.ticker = some q) :
    (s.last_direction = some PosSide.LONG → 0 < s.last_units →
      p ≤ s.short_entry →
      gw.createOrder
        ⟨OrdSide.SELL, |s.last_units * 2|, PosSide.SHORT⟩ = true →
      (stream_price gw p s).state.long_entry = s.long_entry ∧
      (stream_price gw p s).state.long_tp = s.long_tp ∧
      (stream_price gw p s).state.long_sl = s.long_sl ∧
      (stream_price gw p s).state.short_entry = q ∧
      (stream_price gw p s).state.short_tp = q - s.short_tp_deduct * q ∧
      (stream_price gw p s).state.short_sl = q + s.short_sl_add * q) ∧
    (s.last_direction = some PosSide.SHORT → s.last_units < 0 →
      s.long_entry ≤ p →
      gw.createOrder
        ⟨OrdSide.BUY, |s.last_units * 2|, PosSide.LONG⟩ = true →
      (stream_price gw p s).state.short_entry = s.short_entry ∧
      (stream_price gw p s).state.short_tp = s.short_tp ∧
      (stream_price gw p s).state.short_sl = s.short_sl ∧
      (stream_price gw p s).state.long_entry = q ∧
      (stream_price gw p s).state.long_tp = q + s.long_tp_add * q ∧
      (stream_price gw p s).state.long_sl = q - s.long_sl_deduct * q) := by
  constructor
  · intro hd hu hc hok
    rw [stream_price_eq,
      hedging_loop_long_hedge gw { s with close := p } hd hu hc,
      hedge_long_to_short_success gw { s with close := p } q hok ht]
    simp
  · intro hd hu hc hok
    rw [stream_price_eq,
      hedging_loop_short_hedge gw { s with close := p } hd hu hc,
      hedge_short_to_long_success gw { s with close := p } q hok ht]
    simp

/-- C4 witness (Scenario B): from the Scenario A state, a tick at 49800
fires the hedge; the long-side levels stay at 50000/50400/49400 and the
short side is recomputed from the 49800 fill. -/
theorem C4_witness :
    (stream_price gwFill49800 49800 scenarioA).state.long_entry =
      scenarioA.long_entry ∧
    (stream_price gwFill49800 49800 scenarioA).state.long_tp =
      scenarioA.long_tp ∧
    (stream_price gwFill49800 49800 scenarioA).state.long_sl =
      scenarioA.long_sl ∧
    (stream_price gwFill49800 49800 scenarioA).state.short_entry = 49800 ∧
    (stream_price gwFill49800 49800 scenarioA).state.short_tp =
      49800 - scenarioA.short_tp_deduct * 49800 ∧
    (stream_price gwFill49800 49800 scenarioA).state.short_sl =
      49800 + scenarioA.short_sl_add * 49800 :=
  (C4_hedge_frame gwFill49800 49800 49800 scenarioA rfl).1
    (by norm_num [scenarioA, scenarioA_init, gwFill50000, first_trade,
      initState])
    (by norm_num [scenarioA, scenarioA_init, gwFill50000, first_trade,
      initState])
    (by norm_num [scenarioA, scenarioA_init, gwFill50000, first_trade,
      initState])
    rfl

/-- C5: thresholds are inclusive — a tick exactly at the hedge trigger
fires the hedge, a tick exactly at the take-profit trigger (with the
hedge trigger not met) fires the take-profit — the hedge condition is
checked first, and when both conditions hold simultaneously only the
hedge transition runs. -/
theorem C5_tiebreak (gw : Gateway) (p : ℚ) (s : TraderState) :
    (s.last_direction = some PosSide.LONG → 0 < s.last_units →
      ((p = s.short_entry →
        stream_price gw p s =
          ⟨(hedge_long_to_short gw { s with close := p }).state,
           (hedge_long_to_short gw { s with close := p }).orders, false⟩) ∧
       (s.short_entry < p → p = s.long_tp →
        stream_price gw p s =
          ⟨(tp_restart_long gw { s with close := p }).state,
           (tp_restart_long gw { s with close := p }).orders, false⟩) ∧
       (p ≤ s.short_entry → s.long_tp ≤ p →
        stream_price gw p s =
          ⟨(hedge_long_to_short gw { s with close := p }).state,
           (hedge_long_to_short gw { s with close := p }).orders,
           false⟩))) ∧
    (s.last_direction = some PosSide.SHORT → s.last_units < 0 →
      ((p = s.long_entry →
        stream_price gw p s =
          ⟨(hedge_short_to_long gw { s with close := p }).state,
           (hedge_short_to_long gw { s with close := p }).orders, false⟩) ∧
       (p < s.long_entry → p = s.short_tp →
        stream_price gw p s =
          ⟨(tp_restart_short gw { s with close := p }).state,
           (tp_restart_short gw { s with close := p }).orders, false⟩) ∧
       (s.long_entry ≤ p → p ≤ s.short_tp →
        stream_price gw p s =
          ⟨(hedge_short_to_long gw { s with close := p }).state,
           (hedge_short_to_long gw { s with close := p }).orders,
           false⟩))) := by
  constructor
  · intro hd hu
    refine ⟨fun he => ?_, fun hlt he => ?_, fun hc ht => ?_⟩
    · rw [stream_price_eq,
        hedging_loop_long_hedge gw { s with close := p } hd hu (le_of_eq he)]
    · rw [stream_price_eq,
        hedging_loop_long_tp gw { s with close := p } hd hu
          (by simpa using not_le.2 hlt) (le_of_eq he.symm)]
    · rw [stream_price_eq,
        hedging_loop_long_hedge gw { s with close := p } hd hu hc]
  · intro hd hu
    refine ⟨fun he => ?_, fun hlt he => ?_, fun hc ht => ?_⟩
    · rw [stream_price_eq,
        hedging_loop_short_hedge gw { s with close := p } hd hu
          (ge_of_eq he)]
    · rw [stream_price_eq,
        hedging_loop_short_tp gw { s with close := p } hd hu
          (by simpa using not_le.2 hlt) (le_of_eq he)]
    · rw [stream_price_eq,
        hedging_loop_short_hedge gw { s with close := p } hd hu hc]

/-- C5 witness: in Scenario B the tick lands exactly on the short-entry
trigger 49800 and the hedge branch runs. -/
theorem C5_witness :
    stream_price gwFill49800 49800 scenarioA =
      ⟨(hedge_long_to_short gwFill49800
          { scenarioA with close := 49800 }).state,
       (hedge_long_to_short gwFill49800
          { scenarioA with close := 49800 }).orders, false⟩ :=
  ((C5_tiebreak gwFill49800 49800 scenarioA).1
    (by norm_num [scenarioA, scenarioA_init, gwFill50000, first_trade,
      initState])
    (by norm_num [scenarioA, scenarioA_init, gwFill50000, first_trade,
      initState])).1
    (by norm_num [scenarioA, scenarioA_init, gwFill50000, first_trade,
      initState])

section FailureLemmas

lemma first_trade_order_fail_long (gw : Gateway) (s : TraderState)
    (hside : s.side = PosSide.LONG)
    (hfail : gw.createOrder ⟨OrdSide.BUY, s.int_units, PosSide.LONG⟩ =
      false) :
    first_trade gw s = ⟨s, [], true⟩ := by
  simp [first_trade, hside, hfail]

lemma first_trade_ticker_fail_long (gw : Gateway) (s : TraderState)
    (hside : s.side = PosSide.LONG)
    (hok : gw.createOrder ⟨OrdSide.BUY, s.int_units, PosSide.LONG⟩ = true)
    (ht : gw.ticker = none) :
    first_trade gw s =
      ⟨s, [⟨OrdSide.BUY, s.int_units, PosSide.LONG⟩], true⟩ := by
  simp [first_trade, hside, hok, ht]

lemma first_trade_order_fail_short (gw : Gateway) (s : TraderState)
    (hside : s.side = PosSide.SHORT)
    (hfail : gw.createOrder ⟨OrdSide.SELL, s.int_units, PosSide.SHORT⟩ =
      false) :
    first_trade gw s = ⟨s, [], true⟩ := by
  simp [first_trade, hside, hfail]

lemma first_trade_ticker_fail_short (gw : Gateway) (s : TraderState)
    (hside : s.side = PosSide.SHORT)
    (hok : gw.createOrder ⟨OrdSide.SELL, s.int_units, PosSide.SHORT⟩ =
      true)
    (ht : gw.ticker = none) :
    first_trade gw s =
      ⟨s, [⟨OrdSide.SELL, s.int_units, PosSide.SHORT⟩], true⟩ := by
  simp [first_trade, hside, hok, ht]

end FailureLemmas

section Preservation

lemma first_trade_int_units (gw : Gateway) (s : TraderState) :
    (first_trade gw s).state.int_units = s.int_units := by
  cases hs : s.side
  · cases hc : gw.createOrder ⟨OrdSide.BUY, s.int_units, PosSide.LONG⟩
    · rw [first_trade_order_fail_long gw s hs hc]
    · rcases ht : gw.ticker with _ | q
      · rw [first_trade_ticker_fail_long gw s hs hc ht]
      · rw [first_trade_long_success gw s q hs hc ht]
  · cases hc : gw.createOrder ⟨OrdSide.SELL, s.int_units, PosSide.SHORT⟩
    · rw [first_trade_order_fail_short gw s hs hc]
    · rcases ht : gw.ticker with _ | q
      · rw [first_trade_ticker_fail_short gw s hs hc ht]
      · rw [first_trade_short_success gw s q hs hc ht]

lemma hedge_long_to_short_int_units (gw : Gateway) (s : TraderState) :
    (hedge_long_to_short gw s).state.int_units = s.int_units := by
  cases hc : gw.createOrder ⟨OrdSide.SELL, |s.last_units * 2|,
      PosSide.SHORT⟩
  · rw [(hedge_long_to_short_failure gw s (Or.inl hc)).1]
  · rcases ht : gw.ticker with _ | q
    · rw [(hedge_long_to_short_failure gw s (Or.inr ht)).1]
    · rw [hedge_long_to_short_success gw s q hc ht]

lemma hedge_short_to_long_int_units (gw : Gateway) (s : TraderState) :
    (hedge_short_to_long gw s).state.int_units = s.int_units := by
  cases hc : gw.createOrder ⟨OrdSide.BUY, |s.last_units * 2|,
      PosSide.LONG⟩
  · rw [(hedge_short_to_long_failure gw s (Or.inl hc)).1]
  · rcases ht : gw.ticker with _ | q
    · rw [(hedge_short_to_long_failure gw s (Or.inr ht)).1]
    · rw [hedge_short_to_long_success gw s q hc ht]

lemma tp_restart_long_int_units (gw : Gateway) (s : TraderState) :
    (tp_restart_long gw s).state.int_units = s.int_units := by
  unfold tp_restart_long
  by_cases hr : (close_all_positions gw s).raised
  · simp [hr, close_all_state]
  · simp [hr, first_trade_int_units, close_all_state]

lemma tp_restart_short_int_units (gw : Gateway) (s : TraderState) :
    (tp_restart_short gw s).state.int_units = s.int_units := by
  unfold tp_restart_short
  by_cases hr : (close_all_positions gw s).raised
  · simp [hr, close_all_state]
  · simp [hr, first_trade_int_units, close_all_state]

lemma hedging_loop_int_units (gw : Gateway) (s : TraderState) :
    (hedging_loop gw s).state.int_units = s.int_units := by
  rcases hd : s.last_direction with _ | side
  · rw [hedging_loop_none gw s hd]
  · cases side
    · by_cases hsign : 0 < s.last_units
      · by_cases hc : s.close ≤ s.short_entry
        · rw [hedging_loop_long_hedge gw s hd hsign hc]
          exact hedge_long_to_short_int_units gw s
        · by_cases htp : s.long_tp ≤ s.close
          · rw [hedging_loop_long_tp gw s hd hsign hc htp]
            exact tp_restart_long_int_units gw s
          · rw [hedging_loop_long_noop gw s hd hsign hc htp]
      · rw [hedging_loop_long_badsign gw s hd hsign]
    · by_cases hsign : s.last_units < 0
      · by_cases hc : s.long_entry ≤ s.close
        · rw [hedging_loop_short_hedge gw s hd hsign hc]
          exact hedge_short_to_long_int_units gw s
        · by_cases htp : s.close ≤ s.short_tp
          · rw [hedging_loop_short_tp gw s hd hsign hc htp]
            exact tp_restart_short_int_units gw s
          · rw [hedging_loop_short_noop gw s hd hsign hc htp]
      · rw [hedging_loop_short_badsign gw s hd hsign]

lemma stream_price_int_units (gw : Gateway) (p : ℚ) (s : TraderState) :
    (stream_price gw p s).state.int_units = s.int_units := by
  rw [stream_price_eq]
  exact hedging_loop_int_units gw { s with close := p }

end Preservation

section SignInvariant

lemma signOk_first_trade (gw : Gateway) (s : TraderState)
    (hu : 0 < s.int_units) (h : signOk s) :
    signOk (first_trade gw s).state := by
  cases hs : s.side
  · cases hc : gw.createOrder ⟨OrdSide.BUY, s.int_units, PosSide.LONG⟩
    · rw [first_trade_order_fail_long gw s hs hc]
      exact h
    · rcases ht : gw.ticker with _ | q
      · rw [first_trade_ticker_fail_long gw s hs hc ht]
        exact h
      · rw [first_trade_long_success gw s q hs hc ht]
        simpa [signOk] using hu
  · cases hc : gw.createOrder ⟨OrdSide.SELL, s.int_units, PosSide.SHORT⟩
    · rw [first_trade_order_fail_short gw s hs hc]
      exact h
    · rcases ht : gw.ticker with _ | q
      · rw [first_trade_ticker_fail_short gw s hs hc ht]
        exact h
      · rw [first_trade_short_success gw s q hs hc ht]
        simp only [signOk]
        linarith

lemma signOk_hedge_long_to_short (gw : Gateway) (s : TraderState)
    (hu : 0 < s.last_units) (h : signOk s) :
    signOk (hedge_long_to_short gw s).state := by
  cases hc : gw.createOrder ⟨OrdSide.SELL, |s.last_units * 2|,
      PosSide.SHORT⟩
  · rw [(hedge_long_to_short_failure gw s (Or.inl hc)).1]
    exact h
  · rcases ht : gw.ticker with _ | q
    · rw [(hedge_long_to_short_failure gw s (Or.inr ht)).1]
      exact h
    · rw [hedge_long_to_short_success gw s q hc ht]
      simp only [signOk]
      linarith

lemma signOk_hedge_short_to_long (gw : Gateway) (s : TraderState)
    (hu : s.last_units < 0) (h : signOk s) :
    signOk (hedge_short_to_long gw s).state := by
  cases hc : gw.createOrder ⟨OrdSide.BUY, |s.last_units * 2|,
      PosSide.LONG⟩
  · rw [(hedge_short_to_long_failure gw s (Or.inl hc)).1]
    exact h
  · rcases ht : gw.ticker with _ | q
    · rw [(hedge_short_to_long_failure gw s (Or.inr ht)).1]
      exact h
    · rw [hedge_short_to_long_success gw s q hc ht]
      simp only [signOk]
      linarith

lemma signOk_tp_restart_long (gw : Gateway) (s : TraderState)
    (hu : 0 < s.int_units) (h : signOk s) :
    signOk (tp_restart_long gw s).state := by
  unfold tp_restart_long
  by_cases hr : (close_all_positions gw s).raised
  · simpa [hr, close_all_state] using h
  · simp only [hr, if_neg, Bool.false_eq_true, not_false_iff]
    apply signOk_first_trade
    · simpa [close_all_state] using hu
    · simp [signOk]

lemma signOk_tp_restart_short (gw : Gateway) (s : TraderState)
    (hu : 0 < s.int_units) (h : signOk s) :
    signOk (tp_restart_short gw s).state := by
  unfold tp_restart_short
  by_cases hr : (close_all_positions gw s).raised
  · simpa [hr, close_all_state] using h
  · simp only [hr, if_neg, Bool.false_eq_true, not_false_iff]
    apply signOk_first_trade
    · simpa [close_all_state] using hu
    · simp [signOk]

lemma signOk_hedging_loop (gw : Gateway) (s : TraderState)
    (hu : 0 < s.int_units) (h : signOk s) :
    signOk (hedging_loop gw s).state := by
  rcases hd : s.last_direction with _ | side
  · rw [hedging_loop_none gw s hd]
    exact h
  · cases side
    · by_cases hsign : 0 < s.last_units
      · by_cases hc : s.close ≤ s.short_entry
        · rw [hedging_loop_long_hedge gw s hd hsign hc]
          exact signOk_hedge_long_to_short gw s hsign h
        · by_cases htp : s.long_tp ≤ s.close
          · rw [hedging_loop_long_tp gw s hd hsign hc htp]
            exact signOk_tp_restart_long gw s hu h
          · rw [hedging_loop_long_noop gw s hd hsign hc htp]
            exact h
      · rw [hedging_loop_long_badsign gw s hd hsign]
        exact h
    · by_cases hsign : s.last_units < 0
      · by_cases hc : s.long_entry ≤ s.close
        · rw [hedging_loop_short_hedge gw s hd hsign hc]
          exact signOk_hedge_short_to_long gw s hsign h
        · by_cases htp : s.close ≤ s.short_tp
          · rw [hedging_loop_short_tp gw s hd hsign hc htp]
            exact signOk_tp_restart_short gw s hu h
          · rw [hedging_loop_short_noop gw s hd hsign hc htp]
            exact h
      · rw [hedging_loop_short_badsign gw s hd hsign]
        exact h

lemma signOk_stream_price (gw : Gateway) (p : ℚ) (s : TraderState)
    (hu : 0 < s.int_units) (h : signOk s) :
    signOk (stream_price gw p s).state := by
  rw [stream_price_eq]
  exact signOk_hedging_loop gw { s with close := p } hu h

lemma signOk_runTicks : ∀ (ts : List (Gateway × ℚ)) (s : TraderState),
    0 < s.int_units → signOk s → signOk (runTicks s ts) := by
  intro ts
  induction ts with
  | nil => intro s hsu hs; exact hs
  | cons t rest ih =>
    intro s hsu hs
    exact ih _
      (by rw [stream_price_int_units]; exact hsu)
      (signOk_stream_price t.1 t.2 s hsu hs)

end SignInvariant

/-- C1: over a whole run as the source performs it — `start_trading`
executes `first_trade` from the freshly-constructed flat state (against
an arbitrary gateway, so the entry may also fail) *before* the price
stream starts — after every processed tick the sign of `last_units`
matches `last_direction`: positive when LONG, negative when SHORT, zero
when `None`, given a positive configured unit size. -/
theorem C1_sign_matches_direction (units : ℚ) (side : PosSide)
    (lea sed lta lsd std ssa : ℚ) (hu : 0 < units) (gw0 : Gateway)
    (ticks : List (Gateway × ℚ)) :
    signOk (runTicks
      (first_trade gw0 (initState units side lea sed lta lsd std ssa)).state
      ticks) := by
  apply signOk_runTicks
  · rw [first_trade_int_units]
    simpa [initState] using hu
  · exact signOk_first_trade gw0 _ (by simpa [initState] using hu)
      (by simp [initState, signOk])

/-- C1 witness: base units 0.3, initial LONG entry filled at 50000, then
a tick at 49800 (which fires the hedge into SHORT) and a tick at 50400:
the sign invariant holds at the end of the run. -/
theorem C1_witness :
    signOk (runTicks
      (first_trade gwFill50000
        (initState (3/10) PosSide.LONG (4/1000) (4/1000) (8/1000)
          (12/1000) (8/1000) (12/1000))).state
      [(gwFill49800, 49800), (gwFill50000, 50400)]) :=
  C1_sign_matches_direction (3/10) PosSide.LONG (4/1000) (4/1000) (8/1000)
    (12/1000) (8/1000) (12/1000) (by norm_num) gwFill50000
    [(gwFill49800, 49800), (gwFill50000, 50400)]

/-- C10 (implicit): when the tracked direction and the exposure sign
disagree — LONG with `last_units ≤ 0` or SHORT with `last_units ≥ 0` —
a price update only stores the new close price: no order is issued, the
result does not depend on the gateway at all, and no other field changes.
-/
theorem C10_sign_guard (gw : Gateway) (p : ℚ) (s : TraderState) :
    (s.last_direction = some PosSide.LONG → s.last_units ≤ 0 →
      stream_price gw p s = ⟨{ s with close := p }, [], false⟩) ∧
    (s.last_direction = some PosSide.SHORT → 0 ≤ s.last_units →
      stream_price gw p s = ⟨{ s with close := p }, [], false⟩) := by
  constructor
  · intro hd hu
    rw [stream_price_eq,
      hedging_loop_long_badsign gw { s with close := p } hd
        (by simpa using not_lt.2 hu)]
  · intro hd hu
    rw [stream_price_eq,
      hedging_loop_short_badsign gw { s with close := p } hd
        (by simpa using not_lt.2 hu)]

/-- C10 witness: a LONG-direction state with zero units is left unchanged
except for the stored close price. -/
theorem C10_witness :
    stream_price gwFill50000 123 mismatchedLong =
      ⟨{ mismatchedLong with close := 123 }, [], false⟩ :=
  (C10_sign_guard gwFill50000 123 mismatchedLong).1
    rfl (by norm_num [mismatchedLong, scenarioA_init, initState])

section TpRestartLemmas

lemma tp_restart_long_units (gw : Gateway) (s : TraderState) (q : ℚ)
    (hcr : (close_all_positions gw s).raised = false)
    (hok : gw.createOrder ⟨OrdSide.BUY, s.int_units, PosSide.LONG⟩ = true)
    (ht : gw.ticker = some q) :
    (tp_restart_long gw s).state.last_units = s.int_units := by
  unfold tp_restart_long
  rw [close_all_state, hcr]
  rw [if_neg (by simp)]
  rw [first_trade_long_success gw
    { s with
      last_units := 0
      last_direction := none
      side := PosSide.LONG } q rfl hok ht]

lemma tp_restart_short_units (gw : Gateway) (s : TraderState) (q : ℚ)
    (hcr : (close_all_positions gw s).raised = false)
    (hok : gw.createOrder ⟨OrdSide.SELL, s.int_units, PosSide.SHORT⟩ =
      true)
    (ht : gw.ticker = some q) :
    (tp_restart_short gw s).state.last_units = s.int_units * (-1) := by
  unfold tp_restart_short
  rw [close_all_state, hcr]
  rw [if_neg (by simp)]
  rw [first_trade_short_success gw
    { s with
      last_units := 0
      last_direction := none
      side := PosSide.SHORT } q rfl hok ht]

lemma tp_restart_long_close_fail (gw : Gateway) (s : TraderState)
    (hr : (close_all_positions gw s).raised = true) :
    (tp_restart_long gw s).state = s := by
  unfold tp_restart_long
  rw [hr]
  rw [if_pos rfl]
  exact close_all_state gw s

lemma tp_restart_short_close_fail (gw : Gateway) (s : TraderState)
    (hr : (close_all_positions gw s).raised = true) :
    (tp_restart_short gw s).state = s := by
  unfold tp_restart_short
  rw [hr]
  rw [if_pos rfl]
  exact close_all_state gw s

end TpRestartLemmas

/-- C2: a hedge transition exactly doubles the exposure magnitude and the
opposing order it places carries quantity `2 × |exposureUnits_before|`;
a take-profit restart resets the exposure to exactly `±baseUnits`
(`int_units` is never reassigned, so with `int_units = base_units` — true
from construction on — the restart magnitude is `baseUnits` no matter how
many doublings preceded it). -/
theorem C2_doubling_law (gw : Gateway) (p : ℚ) (s : TraderState)
    (hbu : s.int_units = s.base_units) :
    (∀ q, s.last_direction = some PosSide.LONG → 0 < s.last_units →
      p ≤ s.short_entry →
      gw.createOrder ⟨OrdSide.SELL, |s.last_units * 2|, PosSide.SHORT⟩ =
        true →
      gw.ticker = some q →
      |(stream_price gw p s).state.last_units| = 2 * |s.last_units| ∧
      (stream_price gw p s).orders =
        [⟨OrdSide.SELL, 2 * |s.last_units|, PosSide.SHORT⟩]) ∧
    (∀ q, s.last_direction = some PosSide.SHORT → s.last_units < 0 →
      s.long_entry ≤ p →
      gw.createOrder ⟨OrdSide.BUY, |s.last_units * 2|, PosSide.LONG⟩ =
        true →
      gw.ticker = some q →
      |(stream_price gw p s).state.last_units| = 2 * |s.last_units| ∧
      (stream_price gw p s).orders =
        [⟨OrdSide.BUY, 2 * |s.last_units|, PosSide.LONG⟩]) ∧
    (∀ q, s.last_direction = some PosSide.LONG → 0 < s.last_units →
      ¬ p ≤ s.short_entry → s.long_tp ≤ p →
      (close_all_positions gw { s with close := p }).raised = false →
      gw.createOrder ⟨OrdSide.BUY, s.int_units, PosSide.LONG⟩ = true →
      gw.ticker = some q →
      (stream_price gw p s).state.last_units = s.base_units) ∧
    (∀ q, s.last_direction = some PosSide.SHORT → s.last_units < 0 →
      ¬ s.long_entry ≤ p → p ≤ s.short_tp →
      (close_all_positions gw { s with close := p }).raised = false →
      gw.createOrder ⟨OrdSide.SELL, s.int_units, PosSide.SHORT⟩ = true →
      gw.ticker = some q →
      (stream_price gw p s).state.last_units = - s.base_units) := by
  refine ⟨?_, ?_, ?_, ?_⟩
  · intro q hd hu hc hok ht
    rw [stream_price_eq,
      hedging_loop_long_hedge gw { s with close := p } hd hu hc,
      hedge_long_to_short_success gw { s with close := p } q hok ht]
    constructor
    · show |s.last_units * 2 * (-1)| = 2 * |s.last_units|
      rw [show s.last_units * 2 * (-1) = -(2 * s.last_units) by ring,
        abs_neg, abs_mul, abs_two]
    · show [(⟨OrdSide.SELL, |s.last_units * 2|, PosSide.SHORT⟩ :
        OrderReq)] = _
      rw [show |s.last_units * 2| = 2 * |s.last_units| by
        rw [mul_comm, abs_mul, abs_two]]
  · intro q hd hu hc hok ht
    rw [stream_price_eq,
      hedging_loop_short_hedge gw { s with close := p } hd hu hc,
      hedge_short_to_long_success gw { s with close := p } q hok ht]
    constructor
    · show |s.last_units * 2 * (-1)| = 2 * |s.last_units|
      rw [show s.last_units * 2 * (-1) = -(2 * s.last_units) by ring,
        abs_neg, abs_mul, abs_two]
    · show [(⟨OrdSide.BUY, |s.last_units * 2|, PosSide.LONG⟩ :
        OrderReq)] = _
      rw [show |s.last_units * 2| = 2 * |s.last_units| by
        rw [mul_comm, abs_mul, abs_two]]
  · intro q hd hu hc htp hcr hok ht
    rw [stream_price_eq,
      hedging_loop_long_tp gw { s with close := p } hd hu hc htp]
    show (tp_restart_long gw { s with close := p }).state.last_units =
      s.base_units
    rw [tp_restart_long_units gw { s with close := p } q hcr hok ht]
    exact hbu
  · intro q hd hu hc htp hcr hok ht
    rw [stream_price_eq,
      hedging_loop_short_tp gw { s with close := p } hd hu hc htp]
    show (tp_restart_short gw { s with close := p }).state.last_units =
      - s.base_units
    rw [tp_restart_short_units gw { s with close := p } q hcr hok ht]
    show s.int_units * (-1) = - s.base_units
    rw [hbu]
    ring

/-- C2 witness (Scenario B): from Scenario A's 0.3-unit LONG, the hedge
at 49800 leaves exposure magnitude 0.6 and places a SELL for 0.6. -/
theorem C2_witness :
    |(stream_price gwFill49800 49800 scenarioA).state.last_units| =
      2 * |scenarioA.last_units| ∧
    (stream_price gwFill49800 49800 scenarioA).orders =
      [⟨OrdSide.SELL, 2 * |scenarioA.last_units|, PosSide.SHORT⟩] :=
  (C2_doubling_law gwFill49800 49800 scenarioA
    (by norm_num [scenarioA, scenarioA_init, gwFill50000, first_trade,
      initState])).1 49800
    (by norm_num [scenarioA, scenarioA_init, gwFill50000, first_trade,
      initState])
    (by norm_num [scenarioA, scenarioA_init, gwFill50000, first_trade,
      initState])
    (by norm_num [scenarioA, scenarioA_init, gwFill50000, first_trade,
      initState])
    rfl rfl

/-- C6: for any configuration whose six offsets all lie strictly between
0 and 1 and any positive fill price, a successful `first_trade` on the
LONG side yields `longSl < longEntry < longTp`,
`shortTp < shortEntry < shortSl`, and exposure exactly `+baseUnits`. -/
theorem C6_level_ordering (gw : Gateway) (s : TraderState) (p : ℚ)
    (hside : s.side = PosSide.LONG)
    (hbu : s.int_units = s.base_units)
    (hp : 0 < p)
    (h1 : 0 < s.long_entry_add) (h1' : s.long_entry_add < 1)
    (h2 : 0 < s.short_entry_deduct) (h2' : s.short_entry_deduct < 1)
    (h3 : 0 < s.long_tp_add) (h3' : s.long_tp_add < 1)
    (h4 : 0 < s.long_sl_deduct) (h4' : s.long_sl_deduct < 1)
    (h5 : 0 < s.short_tp_deduct) (h5' : s.short_tp_deduct < 1)
    (h6 : 0 < s.short_sl_add) (h6' : s.short_sl_add < 1)
    (hok : gw.createOrder ⟨OrdSide.BUY, s.int_units, PosSide.LONG⟩ = true)
    (ht : gw.ticker = some p) :
    (first_trade gw s).state.long_sl <
      (first_trade gw s).state.long_entry ∧
    (first_trade gw s).state.long_entry <
      (first_trade gw s).state.long_tp ∧
    (first_trade gw s).state.short_tp <
      (first_trade gw s).state.short_entry ∧
    (first_trade gw s).state.short_entry <
      (first_trade gw s).state.short_sl ∧
    (first_trade gw s).state.last_units = s.base_units := by
  rw [first_trade_long_success gw s p hside hok ht]
  have hse : 0 < p - s.short_entry_deduct * p := by nlinarith
  refine ⟨?_, ?_, ?_, ?_, hbu⟩
  · show p - s.long_sl_deduct * p < p
    nlinarith
  · show p < p + s.long_tp_add * p
    nlinarith
  · show (p - s.short_entry_deduct * p) -
        s.short_tp_deduct * (p - s.short_entry_deduct * p) <
      p - s.short_entry_deduct * p
    nlinarith
  · show p - s.short_entry_deduct * p <
      (p - s.short_entry_deduct * p) +
        s.short_sl_add * (p - s.short_entry_deduct * p)
    nlinarith

/-- C6 witness: Scenario A's configuration and fill price satisfy the
ordering and the exposure resets to base units 0.3. -/
theorem C6_witness :
    (first_trade gwFill50000 scenarioA_init).state.long_sl <
      (first_trade gwFill50000 scenarioA_init).state.long_entry ∧
    (first_trade gwFill50000 scenarioA_init).state.long_entry <
      (first_trade gwFill50000 scenarioA_init).state.long_tp ∧
    (first_trade gwFill50000 scenarioA_init).state.short_tp <
      (first_trade gwFill50000 scenarioA_init).state.short_entry ∧
    (first_trade gwFill50000 scenarioA_init).state.short_entry <
      (first_trade gwFill50000 scenarioA_init).state.short_sl ∧
    (first_trade gwFill50000 scenarioA_init).state.last_units =
      scenarioA_init.base_units :=
  C6_level_ordering gwFill50000 scenarioA_init 50000 rfl rfl
    (by norm_num)
    (by norm_num [scenarioA_init, initState])
    (by norm_num [scenarioA_init, initState])
    (by norm_num [scenarioA_init, initState])
    (by norm_num [scenarioA_init, initState])
    (by norm_num [scenarioA_init, initState])
    (by norm_num [scenarioA_init, initState])
    (by norm_num [scenarioA_init, initState])
    (by norm_num [scenarioA_init, initState])
    (by norm_num [scenarioA_init, initState])
    (by norm_num [scenarioA_init, initState])
    (by norm_num [scenarioA_init, initState])
    (by norm_num [scenarioA_init, initState])
    rfl rfl

/-- C8: a gateway failure during the hedge-entry path (order rejected or
ticker query failing) or during the close-all path of a price update is
swallowed by the callback and leaves every engine field except the stored
close price exactly as it was before the transition began. -/
theorem C8_error_containment (gw : Gateway) (p : ℚ) (s : TraderState) :
    (s.last_direction = some PosSide.LONG → 0 < s.last_units →
      p ≤ s.short_entry →
      (gw.createOrder ⟨OrdSide.SELL, |s.last_units * 2|, PosSide.SHORT⟩ =
          false ∨ gw.ticker = none) →
      (stream_price gw p s).state = { s with close := p } ∧
      (stream_price gw p s).raised = false) ∧
    (s.last_direction = some PosSide.LONG → 0 < s.last_units →
      ¬ p ≤ s.short_entry → s.long_tp ≤ p →
      (close_all_positions gw { s with close := p }).raised = true →
      (stream_price gw p s).state = { s with close := p } ∧
      (stream_price gw p s).raised = false) ∧
    (s.last_direction = some PosSide.SHORT → s.last_units < 0 →
      s.long_entry ≤ p →
      (gw.createOrder ⟨OrdSide.BUY, |s.last_units * 2|, PosSide.LONG⟩ =
          false ∨ gw.ticker = none) →
      (stream_price gw p s).state = { s with close := p } ∧
      (stream_price gw p s).raised = false) ∧
    (s.last_direction = some PosSide.SHORT → s.last_units < 0 →
      ¬ s.long_entry ≤ p → p ≤ s.short_tp →
      (close_all_positions gw { s with close := p }).raised = true →
      (stream_price gw p s).state = { s with close := p } ∧
      (stream_price gw p s).raised = false) := by
  refine ⟨?_, ?_, ?_, ?_⟩
  · intro hd hu hc hfail
    rw [stream_price_eq,
      hedging_loop_long_hedge gw { s with close := p } hd hu hc]
    exact ⟨(hedge_long_to_short_failure gw { s with close := p } hfail).1,
      rfl⟩
  · intro hd hu hc htp hcr
    rw [stream_price_eq,
      hedging_loop_long_tp gw { s with close := p } hd hu hc htp]
    exact ⟨tp_restart_long_close_fail gw { s with close := p } hcr, rfl⟩
  · intro hd hu hc hfail
    rw [stream_price_eq,
      hedging_loop_short_hedge gw { s with close := p } hd hu hc]
    exact ⟨(hedge_short_to_long_failure gw { s with close := p } hfail).1,
      rfl⟩
  · intro hd hu hc htp hcr
    rw [stream_price_eq,
      hedging_loop_short_tp gw { s with close := p } hd hu hc htp]
    exact ⟨tp_restart_short_close_fail gw { s with close := p } hcr, rfl⟩

/-- C8 witness: with a totally failing gateway, a hedge-triggering tick
at 49800 from Scenario A leaves every field but the close price alone and
does not raise. -/
theorem C8_witness :
    (stream_price gwFail 49800 scenarioA).state =
      { scenarioA with close := 49800 } ∧
    (stream_price gwFail 49800 scenarioA).raised = false :=
  (C8_error_containment gwFail 49800 scenarioA).1
    (by norm_num [scenarioA, scenarioA_init, gwFill50000, first_trade,
      initState])
    (by norm_num [scenarioA, scenarioA_init, gwFill50000, first_trade,
      initState])
    (by norm_num [scenarioA, scenarioA_init, gwFill50000, first_trade,
      initState])
    (Or.inl rfl)
